import Mathlib

/-!
Verification of the portfolio-backend HTTP service (src/server.js) against its
natural-language specification.

The embedding models each request handler of server.js as a pure function from
the request data and an oracle for the external collaborators (connection pool,
database, bcrypt, mail transport) to the HTTP response together with the list
of side effects (connection acquire/release, database queries, file stores)
the handler performs, in order.

Two facts about the runtime are baked into the embedding because they decide
observable behaviour:
* the database pool is created by mysql2/promise (src/db/dbconfig.js); the
  promise API silently ignores a callback passed as the third argument of
  `connection.query`, so the `(err, results) => ...` callbacks in server.js
  never run and the response sent after `await connection.query(...)` is the
  one the client sees;
* a multer middleware error (rejected upload) aborts the route before the
  handler runs, and express routes such an error to the global error handler
  (server.js lines 669-672), which answers 500 "Internal Server Error".
-/

namespace Portfolio

/-- A field-level validation error, as produced by the zod error mapping
`error.errors.map(err => ({field, message}))` in server.js. -/
structure FieldError where
  field : String
  message : String
deriving DecidableEq, Repr

/-- An opaque database row. -/
abbrev Row := List (String × String)

/-- The claims carried by the JWT issued on login: `{id, email}`. -/
structure Token where
  id : Nat
  email : String
deriving DecidableEq, Repr

/-- The JSON body shapes server.js sends. -/
inductive Body where
  | successMsg (message : String)
  | successToken (message : String) (token : Token)
  | successResults (results : List Row)
  | failErrors (errors : List FieldError)
  | failError (error : String)
  | errorMsg (message : String)
deriving DecidableEq, Repr

/-- An HTTP response: status code plus JSON body. -/
structure Response where
  status : Nat
  body : Body
deriving DecidableEq, Repr

/-- The parameterized SQL statements issued by server.js, with their bound
arguments.  `Option String` arguments model JS values that may be `undefined`. -/
inductive Query where
  | selectUsers (email : String)
  | insertApps (table : Option String) (title content link category image : String)
  | updateApps (table : Option String) (title content link category image id : String)
  | selectAll (table : String)
  | selectById (table : String) (id : Option String)
  | insertProjects (table : Option String) (pdf image : String)
  | updateProjects (table : Option String) (pdf image id : String)
  | deleteFrom (table : String) (id : Option String)
deriving DecidableEq, Repr

/-- Side effects a request performs, in order. -/
inductive Event where
  | acquire
  | release
  | dbQuery (q : Query)
  | storeFile (filename : String)
deriving DecidableEq, Repr

/-- Outcome of a database query, supplied by the environment: a result packet
(affected row count and row set) or a database error. -/
inductive QueryResult where
  | ok (affectedRows : Nat) (rows : List Row)
  | err (message : String)
deriving DecidableEq, Repr

/-- The queries among a trace of events. -/
def queriesOf (evs : List Event) : List Query :=
  evs.filterMap fun e => match e with | .dbQuery q => some q | _ => none

def countAcquire : List Event → Nat
  | [] => 0
  | .acquire :: t => countAcquire t + 1
  | _ :: t => countAcquire t

def countRelease : List Event → Nat
  | [] => 0
  | .release :: t => countRelease t + 1
  | _ :: t => countRelease t

/-- A trace ends with every acquired pooled connection released. -/
def balancedEvents (evs : List Event) : Prop :=
  countAcquire evs = countRelease evs

/-! ### Character-list string utilities

String computations are carried out on `List Char` so that concrete instances
reduce well.  `splitOnChar`, `isSubList`, `lastIdxOf` mirror the JS string
operations used by server.js and its validators. -/

/-- `needle` occurs as a contiguous substring of `hay`. -/
def isSubList (needle : List Char) : List Char → Bool
  | [] => needle.isEmpty
  | c :: t => needle.isPrefixOf (c :: t) || isSubList needle t

/-- Split a character list at every occurrence of `sep` (like JS split). -/
def splitOnChar (sep : Char) : List Char → List (List Char)
  | [] => [[]]
  | c :: t =>
    let r := splitOnChar sep t
    if c = sep then [] :: r
    else
      match r with
      | [] => [[c]]
      | h :: t2 => (c :: h) :: t2

/-- Index of the last occurrence of `c`, if any. -/
def lastIdxOf (c : Char) (l : List Char) : Option Nat :=
  match l.reverse.findIdx? (· = c) with
  | none => none
  | some i => some (l.length - 1 - i)

/-- Node's `path.extname` on a bare file name: the suffix from the last dot,
or `""` when there is no dot or the only dot is the leading character. -/
def extname (s : String) : String :=
  let cs := s.toList
  match lastIdxOf '.' cs with
  | none => ""
  | some 0 => ""
  | some i => String.mk (cs.drop i)

/-! ### Library validators used by the zod schemas

`isEmail` models the email check behind `z.string().email(...)` (zod library
collaborator, version 3.22 email regular expression): one `@`; a local part
over letters, digits, `_ ' + - .` that does not start with a dot, contains no
`..` and ends in a letter, digit, `_`, `+` or `-`; a domain of one or more
labels (letter/digit head, letter/digit/hyphen tail) followed by an alphabetic
top-level domain of length at least two. -/

def isLocalChar (c : Char) : Bool :=
  c.isAlphanum || c = '_' || c = Char.ofNat 39 || c = '+' || c = '-' || c = '.'

def isLocalEnd (c : Char) : Bool :=
  c.isAlphanum || c = '_' || c = '+' || c = '-'

def labelOk : List Char → Bool
  | [] => false
  | c :: rest => c.isAlphanum && rest.all fun d => d.isAlphanum || d = '-'

def tldOk (l : List Char) : Bool :=
  decide (l.length ≥ 2) && l.all Char.isAlpha

def domainOk (d : List Char) : Bool :=
  match (splitOnChar '.' d).reverse with
  | tld :: labels => tldOk tld && !labels.isEmpty && labels.all labelOk
  | [] => false

def isEmail (s : String) : Bool :=
  let cs := s.toList
  match splitOnChar '@' cs with
  | [loc, dom] =>
    (match cs with | c :: _ => c != '.' | [] => false) &&
    !isSubList ['.', '.'] cs &&
    loc.all isLocalChar &&
    (match loc.getLast? with | some c => isLocalEnd c | none => false) &&
    domainOk dom
  | _ => false

/-- Simplified model of the URL check behind `z.string().url(...)` (zod
delegates to the WHATWG URL parser; the claims under verification do not
depend on URL syntax details): an alphabetic scheme, `://`, nonempty rest. -/
def urlOk (s : String) : Bool :=
  match splitOnChar ':' s.toList with
  | scheme :: rest :: more =>
    !scheme.isEmpty && scheme.all Char.isAlpha &&
    (match rest with
     | '/' :: '/' :: h => !h.isEmpty || !more.isEmpty
     | _ => false)
  | _ => false

/-! ### Validation layer (the zod schemas of server.js)

Fields arrive as `Option String`: `none` is a JS `undefined` (field absent
from the request).  Each validator mirrors one zod field: a missing field
fails with zod's default `"Required"` message; the schema's own message is
used by the failing check otherwise.  A parse collects the errors of every
failing field, in schema declaration order. -/

/-- `z.string().min(1, msg)`. -/
def vRequiredMin1 (field msg : String) : Option String → Except FieldError String
  | none => .error ⟨field, "Required"⟩
  | some s => if s = "" then .error ⟨field, msg⟩ else .ok s

/-- `z.string().url("Link must be a valid URL")`. -/
def vLink : Option String → Except FieldError String
  | none => .error ⟨"link", "Required"⟩
  | some s => if urlOk s then .ok s else .error ⟨"link", "Link must be a valid URL"⟩

/-- `z.enum(["d-only", "d-and-d"], ...)`; the string passed as second argument
in server.js is not a valid zod params object, so zod keeps its default
messages (simplified here to a fixed text, which no claim depends on). -/
def vCategory : Option String → Except FieldError String
  | none => .error ⟨"category", "Required"⟩
  | some s =>
    if s = "d-only" || s = "d-and-d" then .ok s
    else .error ⟨"category", "Invalid enum value"⟩

/-- `z.string().min(1, "Image path is required")` for the image slot. -/
def vImage : Option String → Except FieldError String
  | none => .error ⟨"image", "Required"⟩
  | some s => if s = "" then .error ⟨"image", "Image path is required"⟩ else .ok s

def errsOf {α : Type} : Except FieldError α → List FieldError
  | .ok _ => []
  | .error e => [e]

/-- `z.string().min(1, ...).email("Invalid email format")` for the contact
field: zod runs every check on a present string, so an empty contact collects
both messages. -/
def vContact : Option String → Except (List FieldError) String
  | none => .error [⟨"contact", "Required"⟩]
  | some s =>
    let errs :=
      (if s = "" then [(⟨"contact", "Email Address or Phone Number is required"⟩ : FieldError)] else []) ++
      (if isEmail s then [] else [(⟨"contact", "Invalid email format"⟩ : FieldError)])
    if errs.isEmpty then .ok s else .error errs

/-- Validated fields of the app create/edit schemas. -/
structure AppFields where
  title : String
  content : String
  link : String
  category : String
  image : String
deriving DecidableEq, Repr

/-- `formSchema.parse` (contact form). -/
def parseForm (fullName? contact? message? : Option String) :
    Except (List FieldError) (String × String × String) :=
  match vRequiredMin1 "fullName" "Full Name is required" fullName?,
        vContact contact?,
        vRequiredMin1 "message" "Message is required" message? with
  | .ok f, .ok c, .ok m => .ok (f, c, m)
  | rf, rc, rm =>
    .error (errsOf rf ++ (match rc with | .ok _ => [] | .error es => es) ++ errsOf rm)

/-- `loginSchema.parse`. -/
def parseLogin (email? password? : Option String) :
    Except (List FieldError) (String × String) :=
  match vRequiredMin1 "email" "Email is required" email?,
        vRequiredMin1 "password" "Password is required" password? with
  | .ok e, .ok p => .ok (e, p)
  | re, rp => .error (errsOf re ++ errsOf rp)

/-- `schema.parse` (app creation). -/
def parseAppCreate (title? content? link? category? image? : Option String) :
    Except (List FieldError) AppFields :=
  match vRequiredMin1 "title" "Title is required" title?,
        vRequiredMin1 "content" "Content is required" content?,
        vLink link?, vCategory category?, vImage image? with
  | .ok t, .ok c, .ok l, .ok cat, .ok i => .ok ⟨t, c, l, cat, i⟩
  | rt, rc, rl, rcat, ri =>
    .error (errsOf rt ++ errsOf rc ++ errsOf rl ++ errsOf rcat ++ errsOf ri)

/-- `editSchema.parse` (app edit: the create fields plus a required id). -/
def parseAppEdit (title? content? link? category? image? id? : Option String) :
    Except (List FieldError) (AppFields × String) :=
  match vRequiredMin1 "title" "Title is required" title?,
        vRequiredMin1 "content" "Content is required" content?,
        vLink link?, vCategory category?, vImage image?,
        vRequiredMin1 "id" "ID is required" id? with
  | .ok t, .ok c, .ok l, .ok cat, .ok i, .ok id => .ok (⟨t, c, l, cat, i⟩, id)
  | rt, rc, rl, rcat, ri, rid =>
    .error (errsOf rt ++ errsOf rc ++ errsOf rl ++ errsOf rcat ++ errsOf ri ++ errsOf rid)

/-- Validated fields of the project schemas; `pdfFile` is declared optional in
zod and the handlers always supply it as a plain string. -/
structure ProjectFields where
  pdfFile : String
  image : String
deriving DecidableEq, Repr

/-- `projectSchema.parse`. -/
def parseProject (pdf img : String) : Except (List FieldError) ProjectFields :=
  match vImage (some img) with
  | .ok i => .ok ⟨pdf, i⟩
  | .error e => .error [e]

/-- `projectEditSchema.parse`. -/
def parseProjectEdit (pdf img : String) (id? : Option String) :
    Except (List FieldError) (ProjectFields × String) :=
  match vImage (some img), vRequiredMin1 "id" "ID is required" id? with
  | .ok i, .ok id => .ok (⟨pdf, i⟩, id)
  | ri, rid => .error (errsOf ri ++ errsOf rid)

/-! ### Attachment pipeline (multer storage and fileFilter, server.js 181-206) -/

/-- An incoming multipart file part: client-declared name and MIME type. -/
structure RawFile where
  originalname : String
  mimetype : String
deriving DecidableEq, Repr

/-- A file after multer's diskStorage wrote it: `filename` is the stored name. -/
structure StoredFile where
  originalname : String
  mimetype : String
  filename : String
deriving DecidableEq, Repr

/-- The unanchored regex `/jpeg|jpg|png|gif|pdf/` applied with `.test(s)`:
a substring containment check, not a whole-string match. -/
def filetypesTest (s : String) : Bool :=
  ["jpeg", "jpg", "png", "gif", "pdf"].any fun t => isSubList t.toList s.toList

/-- JS `toLowerCase` on the strings at hand. -/
def lowerStr (s : String) : String :=
  String.mk (s.toList.map Char.toLower)

/-- `fileFilter` (server.js 190-199): accept when both the lowercased
extension of the original name and the declared MIME type pass
`filetypesTest`. -/
def fileFilter (f : RawFile) : Bool :=
  filetypesTest (lowerStr (extname f.originalname)) && filetypesTest f.mimetype

/-- The stored file name chosen by `multer.diskStorage`
(server.js 185-187): `Date.now()` followed by `_` and the original name. -/
def storedName (now : Nat) (f : RawFile) : String :=
  toString now ++ "_" ++ f.originalname

/-- Writing an accepted upload to the public directory. -/
def diskStore (now : Nat) (f : RawFile) : StoredFile :=
  ⟨f.originalname, f.mimetype, storedName now f⟩

/-- `req.file ? req.file.filename : ""` as passed to the app create schema. -/
def imgOf : Option StoredFile → String
  | some f => f.filename
  | none => ""

/-- `imageFile ? imageFile.filename : image` as passed to the app edit
schema: a fresh upload wins, otherwise the body string (possibly absent). -/
def imgInOf (file? : Option StoredFile) (image? : Option String) : Option String :=
  match file? with
  | some f => some f.filename
  | none => image?

/-- `req.files[slot] ? req.files[slot][0].filename : (body ? body : "")` as
resolved by the edit-projects handler: fresh upload, else body string, else
the empty string. -/
def resolvedOf (file? : Option StoredFile) (body? : Option String) : String :=
  match file? with
  | some f => f.filename
  | none => body?.getD ""

/-- JS falsiness of a possibly-absent query/body string (`!x`). -/
def falsy : Option String → Bool
  | none => true
  | some s => s == ""

/-! ### Request handlers (server.js)

Each handler takes the collaborator oracle first: `poolOk` is whether
`pool.getConnection()` succeeds (when it fails nothing was acquired and the
route's catch path answers), and `dbRes`/`dbFail` is the database's answer to
the one query the handler can issue.  The returned event list is the ordered
trace of side effects. -/

/-- Database user row (fixed `users` table); `password` holds the bcrypt hash. -/
structure User where
  id : Nat
  email : String
  password : String
deriving DecidableEq, Repr

/-- POST /api/login (server.js 109-179).  The query
`SELECT * FROM users WHERE email = ?` returns the matching rows in table
order and the handler uses `rows[0]`, i.e. the first match; `bcmp` is the
`bcrypt.compare` collaborator. -/
def loginHandler (poolOk dbFail : Bool) (users : List User)
    (bcmp : String → String → Bool)
    (email? password? : Option String) : Response × List Event :=
  if poolOk then
    match parseLogin email? password? with
    | .error errs => (⟨400, .failErrors errs⟩, [.acquire, .release])
    | .ok (e, p) =>
      if dbFail then
        (⟨500, .errorMsg "An unexpected error occurred"⟩,
         [.acquire, .dbQuery (.selectUsers e), .release])
      else
        match users.find? (fun u => u.email == e) with
        | none =>
          (⟨400, .failErrors [⟨"email", "User does not exist"⟩]⟩,
           [.acquire, .dbQuery (.selectUsers e), .release])
        | some u =>
          if bcmp p u.password then
            (⟨200, .successToken "Successfully Logged In!" ⟨u.id, u.email⟩⟩,
             [.acquire, .dbQuery (.selectUsers e), .release])
          else
            (⟨400, .failErrors [⟨"password", "Incorrect password"⟩]⟩,
             [.acquire, .dbQuery (.selectUsers e), .release])
  else (⟨500, .errorMsg "An unexpected error occurred"⟩, [])

/-- POST /api/apps handler body (server.js 232-299).  The `(err, results)`
callback passed to `connection.query` is ignored by the mysql2 promise API,
so a resolved insert is followed by the unconditional 200 success response
and a rejected insert lands in the catch path (500, generic message). -/
def createAppsHandler (poolOk : Bool) (dbRes : QueryResult)
    (title? content? link? category? table? : Option String)
    (file? : Option StoredFile) : Response × List Event :=
  if poolOk then
    match parseAppCreate title? content? link? category? (some (imgOf file?)) with
    | .error errs => (⟨400, .failErrors errs⟩, [.acquire, .release])
    | .ok v =>
      let q := Query.insertApps table? v.title v.content v.link v.category v.image
      match dbRes with
      | .ok _ _ =>
        (⟨200, .successMsg "Project submitted successfully!"⟩,
         [.acquire, .dbQuery q, .release])
      | .err _ =>
        (⟨500, .errorMsg "An unexpected error occurred"⟩,
         [.acquire, .dbQuery q, .release])
  else (⟨500, .errorMsg "An unexpected error occurred"⟩, [])

/-- POST /api/edit/apps handler body (server.js 301-375).  As in the create
handler the query callback — including its `affectedRows === 0` → 404 branch —
is dead under the mysql2 promise API: any resolved update, zero affected rows
included, is answered 200 with the success shape. -/
def editAppsHandler (poolOk : Bool) (dbRes : QueryResult)
    (title? content? link? category? image? table? id? : Option String)
    (file? : Option StoredFile) : Response × List Event :=
  if poolOk then
    match parseAppEdit title? content? link? category? (imgInOf file? image?) id? with
    | .error errs => (⟨400, .failErrors errs⟩, [.acquire, .release])
    | .ok (v, id) =>
      let q := Query.updateApps table? v.title v.content v.link v.category v.image id
      match dbRes with
      | .ok _ _ =>
        (⟨200, .successMsg "Project updated successfully!"⟩,
         [.acquire, .dbQuery q, .release])
      | .err _ =>
        (⟨500, .errorMsg "An unexpected error occurred"⟩,
         [.acquire, .dbQuery q, .release])
  else (⟨500, .errorMsg "An unexpected error occurred"⟩, [])

/-- GET /api/apps (server.js 377-396). -/
def getAppsHandler (poolOk : Bool) (dbRes : QueryResult)
    (db? : Option String) : Response × List Event :=
  if poolOk then
    if falsy db? then
      (⟨400, .failError "Table name is required"⟩, [.acquire, .release])
    else
      let t := db?.getD ""
      match dbRes with
      | .ok _ rows =>
        (⟨200, .successResults rows⟩, [.acquire, .dbQuery (.selectAll t), .release])
      | .err _ =>
        (⟨500, .failError "Database query failed"⟩,
         [.acquire, .dbQuery (.selectAll t), .release])
  else (⟨500, .failError "Database query failed"⟩, [])

/-- GET /api/edit/apps (server.js 398-419): rejects when the table or the id
is missing. -/
def getEditAppsHandler (poolOk : Bool) (dbRes : QueryResult)
    (db? id? : Option String) : Response × List Event :=
  if poolOk then
    if falsy db? || falsy id? then
      (⟨400, .failError "Table or ID name is required"⟩, [.acquire, .release])
    else
      let t := db?.getD ""
      match dbRes with
      | .ok _ rows =>
        (⟨200, .successResults rows⟩, [.acquire, .dbQuery (.selectById t id?), .release])
      | .err _ =>
        (⟨500, .failError "Database query failed"⟩,
         [.acquire, .dbQuery (.selectById t id?), .release])
  else (⟨500, .failError "Database query failed"⟩, [])

/-- POST /api/projects handler body (server.js 432-488).  `files?` is
`req.files`: `none` when the request was not multipart (multer leaves
`req.files` unset), otherwise the optional `image` and `pdfFile` parts.  The
handler reads `req.files["image"]` (line 437) after `pool.getConnection()`
and outside the inner try/finally: with `req.files` undefined that access
throws a TypeError, the outer catch answers 500 and `connection.release()`
never runs — the trace keeps the acquire without a release. -/
def createProjectsHandler (poolOk : Bool) (dbRes : QueryResult)
    (table? : Option String)
    (files? : Option (Option StoredFile × Option StoredFile)) : Response × List Event :=
  if poolOk then
    match files? with
    | none => (⟨500, .errorMsg "An unexpected error occurred"⟩, [.acquire])
    | some (imageFile?, pdfFile?) =>
      match parseProject (imgOf pdfFile?) (imgOf imageFile?) with
      | .error errs => (⟨400, .failErrors errs⟩, [.acquire, .release])
      | .ok v =>
        let q := Query.insertProjects table? v.pdfFile v.image
        match dbRes with
        | .ok _ _ =>
          (⟨200, .successMsg "Project submitted successfully!"⟩,
           [.acquire, .dbQuery q, .release])
        | .err _ =>
          (⟨500, .errorMsg "An unexpected error occurred"⟩,
           [.acquire, .dbQuery q, .release])
  else (⟨500, .errorMsg "An unexpected error occurred"⟩, [])

/-- POST /api/edit/projects handler body (server.js 515-588); like the app
edit, the update callback is dead and any resolved update is answered 200.
`files?` is `req.files` as in the create handler: the access at line 520
sits after `pool.getConnection()` and outside the inner try/finally, so a
non-multipart request throws there and the acquired connection is never
released. -/
def editProjectsHandler (poolOk : Bool) (dbRes : QueryResult)
    (table? image? pdfFile? id? : Option String)
    (files? : Option (Option StoredFile × Option StoredFile)) : Response × List Event :=
  if poolOk then
    match files? with
    | none => (⟨500, .errorMsg "An unexpected error occurred"⟩, [.acquire])
    | some (imageF?, pdfF?) =>
      match parseProjectEdit (resolvedOf pdfF? pdfFile?) (resolvedOf imageF? image?) id? with
      | .error errs => (⟨400, .failErrors errs⟩, [.acquire, .release])
      | .ok (v, id) =>
        let q := Query.updateProjects table? v.pdfFile v.image id
        match dbRes with
        | .ok _ _ =>
          (⟨200, .successMsg "Project submitted successfully!"⟩,
           [.acquire, .dbQuery q, .release])
        | .err _ =>
          (⟨500, .errorMsg "An unexpected error occurred"⟩,
           [.acquire, .dbQuery q, .release])
  else (⟨500, .errorMsg "An unexpected error occurred"⟩, [])

/-- GET /api/projects (server.js 590-610); same code as GET /api/apps. -/
def getProjectsHandler (poolOk : Bool) (dbRes : QueryResult)
    (db? : Option String) : Response × List Event :=
  if poolOk then
    if falsy db? then
      (⟨400, .failError "Table name is required"⟩, [.acquire, .release])
    else
      let t := db?.getD ""
      match dbRes with
      | .ok _ rows =>
        (⟨200, .successResults rows⟩, [.acquire, .dbQuery (.selectAll t), .release])
      | .err _ =>
        (⟨500, .failError "Database query failed"⟩,
         [.acquire, .dbQuery (.selectAll t), .release])
  else (⟨500, .failError "Database query failed"⟩, [])

/-- GET /api/edit/projects (server.js 612-633): checks only the table name;
the id is bound into the query even when absent. -/
def getEditProjectsHandler (poolOk : Bool) (dbRes : QueryResult)
    (db? id? : Option String) : Response × List Event :=
  if poolOk then
    if falsy db? then
      (⟨400, .failError "Table name is required"⟩, [.acquire, .release])
    else
      let t := db?.getD ""
      match dbRes with
      | .ok _ rows =>
        (⟨200, .successResults rows⟩, [.acquire, .dbQuery (.selectById t id?), .release])
      | .err _ =>
        (⟨500, .failError "Database query failed"⟩,
         [.acquire, .dbQuery (.selectById t id?), .release])
  else (⟨500, .failError "Database query failed"⟩, [])

/-- GET /api/projects/delete (server.js 635-656): checks only `type` (the
table); `id` is bound into the delete even when absent. -/
def deleteProjectsHandler (poolOk : Bool) (dbRes : QueryResult)
    (type? id? : Option String) : Response × List Event :=
  if poolOk then
    if falsy type? then
      (⟨400, .failError "Table name is required"⟩, [.acquire, .release])
    else
      let t := type?.getD ""
      match dbRes with
      | .ok _ rows =>
        (⟨200, .successResults rows⟩, [.acquire, .dbQuery (.deleteFrom t id?), .release])
      | .err _ =>
        (⟨500, .failError "Database query failed"⟩,
         [.acquire, .dbQuery (.deleteFrom t id?), .release])
  else (⟨500, .failError "Database query failed"⟩, [])

/-- POST /api/send-mail (server.js 59-102).  `templateOk` models the
template read, `mailOk` the nodemailer transport (whose failures carry a
`.response` and are reported as the external-service 500). -/
def sendMailHandler (templateOk mailOk : Bool)
    (fullName? contact? message? : Option String) : Response :=
  match parseForm fullName? contact? message? with
  | .error errs => ⟨400, .failErrors errs⟩
  | .ok _ =>
    if templateOk then
      if mailOk then ⟨200, .successMsg "Email sent successfully!"⟩
      else ⟨500, .errorMsg "Failed to send email due to an external service error"⟩
    else ⟨500, .errorMsg "An unexpected error occurred"⟩

/-- The full POST /api/apps route: the `uploadImageOnly` multer middleware
runs first.  An attached file is passed through `fileFilter`; acceptance
stores it under `storedName` before the handler body runs, rejection aborts
the route with the multer error, which express hands to the global error
handler (500 "Internal Server Error") — the handler body, and hence any
database access, is never reached. -/
def createAppsRoute (now : Nat) (poolOk : Bool) (dbRes : QueryResult)
    (title? content? link? category? table? : Option String)
    (upload? : Option RawFile) : Response × List Event :=
  match upload? with
  | none => createAppsHandler poolOk dbRes title? content? link? category? table? none
  | some f =>
    if fileFilter f then
      let sf := diskStore now f
      let out := createAppsHandler poolOk dbRes title? content? link? category? table? (some sf)
      (out.1, .storeFile sf.filename :: out.2)
    else (⟨500, .errorMsg "Internal Server Error"⟩, [])

/-! ### GET / and the catch-all error handler -/

/-- Identifiers bound at module scope of server.js: the imports and the
top-level consts.  No top-level binding named `results` exists; that name
only occurs as a callback parameter inside other handlers. -/
def serverTopLevelNames : List String :=
  ["express", "dotenv", "bodyParser", "z", "morgan", "compile", "helmet", "cors",
   "fs", "pool", "bcrypt", "jwt", "multer", "path", "fileURLToPath", "transporter",
   "app", "__filename", "__dirname", "env", "envPath",
   "formSchema", "loginSchema", "storage", "fileFilter", "upload",
   "uploadImageOnly", "checkImageType", "schema", "editSchema",
   "projectSchema", "projectEditSchema", "checkFiles", "handleUpload", "PORT"]

/-- Outcome of running a handler body: a response was sent, or evaluating the
body raised an error. -/
inductive RootOutcome where
  | sent (r : Response)
  | threw
deriving DecidableEq, Repr

/-- GET / handler (server.js 658-660): the response object literal mentions
the free identifier `results`; evaluating it raises a ReferenceError unless
the name is bound in module scope (the placeholder row set in the bound
branch is irrelevant — that branch is proved unreachable). -/
def rootGetHandler : RootOutcome :=
  if serverTopLevelNames.contains "results" then .sent ⟨200, .successResults []⟩
  else .threw

/-- Express dispatch for GET /: an error raised by the handler falls through
to the global error handler (server.js 669-672), which answers
500 "Internal Server Error" — the framework contract the spec describes in
its error-handling design. -/
def rootRoute : Response :=
  match rootGetHandler with
  | .sent r => r
  | .threw => ⟨500, .errorMsg "Internal Server Error"⟩

/-! ### Allow-list predicate as the specification words it -/

/-- The fixed allow-list named by the spec. -/
def allowList : List String := ["jpeg", "jpg", "png", "gif", "pdf"]

/-- The subtype of a MIME string such as `image/png`. -/
def mimeSubtype (s : String) : String :=
  match splitOnChar '/' s.toList with
  | [_, sub] => String.mk sub
  | _ => ""

/-- Upload acceptance as the specification words it, for comparison with the
`fileFilter` the source implements: the file extension (lowercased, without
the dot) and the declared MIME subtype must each be a member of the fixed
allow-list. -/
def specAllowed (f : RawFile) : Bool :=
  allowList.contains (String.mk (((lowerStr (extname f.originalname)).toList).drop 1)) &&
  allowList.contains (mimeSubtype f.mimetype)

/-- The token carried by a response, if any. -/
def tokenOf : Response → Option Token
  | ⟨_, .successToken _ tok⟩ => some tok
  | _ => none

/-- The field errors carried by a response, if any. -/
def errorsOf : Response → List FieldError
  | ⟨_, .failErrors es⟩ => es
  | _ => []

/-! ### Helper lemmas -/

theorem storedName_ne_empty (now : Nat) (f : RawFile) : storedName now f ≠ "" := by
  intro h
  have h2 := congrArg String.length h
  rw [storedName, String.length_append, String.length_append] at h2
  simp at h2
  exact absurd h2.1.2 (by decide)

theorem balanced_nil : balancedEvents [] := rfl

theorem balanced_ar : balancedEvents [.acquire, .release] := rfl

theorem balanced_aqr (q : Query) : balancedEvents [.acquire, .dbQuery q, .release] := rfl

theorem login_balanced (poolOk dbFail : Bool) (users : List User)
    (bcmp : String → String → Bool) (e? p? : Option String) :
    balancedEvents (loginHandler poolOk dbFail users bcmp e? p?).2 := by
  cases poolOk with
  | false => exact balanced_nil
  | true =>
    cases hp : parseLogin e? p? with
    | error errs => simp [loginHandler, hp, balancedEvents, countAcquire, countRelease]
    | ok ep =>
      obtain ⟨e, p⟩ := ep
      cases dbFail with
      | true => simp [loginHandler, hp, balancedEvents, countAcquire, countRelease]
      | false =>
        cases hf : users.find? (fun u => u.email == e) with
        | none => simp [loginHandler, hp, hf, balancedEvents, countAcquire, countRelease]
        | some u =>
          cases hb : bcmp p u.password <;>
            simp [loginHandler, hp, hf, hb, balancedEvents, countAcquire, countRelease]

theorem createApps_balanced (poolOk : Bool) (dbRes : QueryResult)
    (t? c? l? cat? tb? : Option String) (f? : Option StoredFile) :
    balancedEvents (createAppsHandler poolOk dbRes t? c? l? cat? tb? f?).2 := by
  cases poolOk with
  | false => exact balanced_nil
  | true =>
    cases hp : parseAppCreate t? c? l? cat? (some (imgOf f?)) with
    | error errs => simp [createAppsHandler, hp, balancedEvents, countAcquire, countRelease]
    | ok v =>
      cases dbRes <;>
        simp [createAppsHandler, hp, balancedEvents, countAcquire, countRelease]

theorem editApps_balanced (poolOk : Bool) (dbRes : QueryResult)
    (t? c? l? cat? im? tb? id? : Option String) (f? : Option StoredFile) :
    balancedEvents (editAppsHandler poolOk dbRes t? c? l? cat? im? tb? id? f?).2 := by
  cases poolOk with
  | false => exact balanced_nil
  | true =>
    cases hp : parseAppEdit t? c? l? cat? (imgInOf f? im?) id? with
    | error errs => simp [editAppsHandler, hp, balancedEvents, countAcquire, countRelease]
    | ok v =>
      obtain ⟨v, id⟩ := v
      cases dbRes <;>
        simp [editAppsHandler, hp, balancedEvents, countAcquire, countRelease]

theorem createProjects_balanced (poolOk : Bool) (dbRes : QueryResult)
    (tb? : Option String) (fi? fp? : Option StoredFile) :
    balancedEvents (createProjectsHandler poolOk dbRes tb? (some (fi?, fp?))).2 := by
  cases poolOk with
  | false => exact balanced_nil
  | true =>
    cases hp : parseProject (imgOf fp?) (imgOf fi?) with
    | error errs =>
      simp [createProjectsHandler, hp, balancedEvents, countAcquire, countRelease]
    | ok v =>
      cases dbRes <;>
        simp [createProjectsHandler, hp, balancedEvents, countAcquire, countRelease]

theorem editProjects_balanced (poolOk : Bool) (dbRes : QueryResult)
    (tb? im? pdf? id? : Option String) (fi? fp? : Option StoredFile) :
    balancedEvents (editProjectsHandler poolOk dbRes tb? im? pdf? id? (some (fi?, fp?))).2 := by
  cases poolOk with
  | false => exact balanced_nil
  | true =>
    cases hp : parseProjectEdit (resolvedOf fp? pdf?) (resolvedOf fi? im?) id? with
    | error errs =>
      simp [editProjectsHandler, hp, balancedEvents, countAcquire, countRelease]
    | ok v =>
      obtain ⟨v, id⟩ := v
      cases dbRes <;>
        simp [editProjectsHandler, hp, balancedEvents, countAcquire, countRelease]

theorem getApps_balanced (poolOk : Bool) (dbRes : QueryResult) (db? : Option String) :
    balancedEvents (getAppsHandler poolOk dbRes db?).2 := by
  cases poolOk with
  | false => exact balanced_nil
  | true =>
    cases hd : falsy db? with
    | true => simp [getAppsHandler, hd, balancedEvents, countAcquire, countRelease]
    | false =>
      cases dbRes <;> simp [getAppsHandler, hd, balancedEvents, countAcquire, countRelease]

theorem getEditApps_balanced (poolOk : Bool) (dbRes : QueryResult) (db? id? : Option String) :
    balancedEvents (getEditAppsHandler poolOk dbRes db? id?).2 := by
  cases poolOk with
  | false => exact balanced_nil
  | true =>
    cases hd : falsy db? || falsy id? with
    | true => simp [getEditAppsHandler, hd, balancedEvents, countAcquire, countRelease]
    | false =>
      cases dbRes <;>
        simp [getEditAppsHandler, hd, balancedEvents, countAcquire, countRelease]

theorem getProjects_balanced (poolOk : Bool) (dbRes : QueryResult) (db? : Option String) :
    balancedEvents (getProjectsHandler poolOk dbRes db?).2 := by
  cases poolOk with
  | false => exact balanced_nil
  | true =>
    cases hd : falsy db? with
    | true => simp [getProjectsHandler, hd, balancedEvents, countAcquire, countRelease]
    | false =>
      cases dbRes <;>
        simp [getProjectsHandler, hd, balancedEvents, countAcquire, countRelease]

theorem getEditProjects_balanced (poolOk : Bool) (dbRes : QueryResult) (db? id? : Option String) :
    balancedEvents (getEditProjectsHandler poolOk dbRes db? id?).2 := by
  cases poolOk with
  | false => exact balanced_nil
  | true =>
    cases hd : falsy db? with
    | true => simp [getEditProjectsHandler, hd, balancedEvents, countAcquire, countRelease]
    | false =>
      cases dbRes <;>
        simp [getEditProjectsHandler, hd, balancedEvents, countAcquire, countRelease]

theorem deleteProjects_balanced (poolOk : Bool) (dbRes : QueryResult) (type? id? : Option String) :
    balancedEvents (deleteProjectsHandler poolOk dbRes type? id?).2 := by
  cases poolOk with
  | false => exact balanced_nil
  | true =>
    cases hd : falsy type? with
    | true => simp [deleteProjectsHandler, hd, balancedEvents, countAcquire, countRelease]
    | false =>
      cases dbRes <;>
        simp [deleteProjectsHandler, hd, balancedEvents, countAcquire, countRelease]

theorem sendMail_contact_error (tOk mOk : Bool) (fn c m : String) (es : List FieldError)
    (hvc : vContact (some c) = .error es) :
    (sendMailHandler tOk mOk (some fn) (some c) (some m)).status = 400 ∧
    errorsOf (sendMailHandler tOk mOk (some fn) (some c) (some m)) =
      errsOf (vRequiredMin1 "fullName" "Full Name is required" (some fn)) ++ es ++
        errsOf (vRequiredMin1 "message" "Message is required" (some m)) := by
  cases hrf : vRequiredMin1 "fullName" "Full Name is required" (some fn) <;>
    cases hrm : vRequiredMin1 "message" "Message is required" (some m) <;>
      simp [sendMailHandler, parseForm, hrf, hrm, hvc, errorsOf, errsOf]

/-! ### Claim theorems -/

/-- Claim C1 (code bug): a POST /api/edit/apps request with valid fields and
an id matching no row is claimed to be answered NotFound; in the code the
update's `(err, results)` callback — the only place the zero-affected-rows
404 lives — is ignored by the mysql2 promise API, so the handler answers
200 with the success shape whatever the affected-row count.  The first
conjunct evaluates the handler at the failing input (table `apps_demo`,
id `999`, zero rows affected, `image` kept as an existing string); the
second shows the response ignores the affected-row count entirely. -/
theorem C1_edit_nonexistent_row_answers_success :
    (editAppsHandler true (.ok 0 []) (some "T") (some "Body text") (some "http://x.io")
        (some "d-only") (some "old.png") (some "apps_demo") (some "999") none =
      (⟨200, .successMsg "Project updated successfully!"⟩,
       [.acquire,
        .dbQuery (.updateApps (some "apps_demo") "T" "Body text" "http://x.io"
          "d-only" "old.png" "999"),
        .release])) ∧
    (∀ affected : Nat, ∀ rows : List Row,
      (editAppsHandler true (.ok affected rows) (some "T") (some "Body text")
        (some "http://x.io") (some "d-only") (some "old.png") (some "apps_demo")
        (some "999") none).1 =
        ⟨200, .successMsg "Project updated successfully!"⟩) :=
  ⟨by decide, fun _ _ => rfl⟩

/-- Claim C2 counterexample: the create operation (POST /api/apps) invoked
with a missing table name does not answer 400 and does attempt the insert —
the handler never inspects `table`. -/
theorem C2_counterexample_create_without_table :
    (createAppsHandler true (.ok 1 []) (some "T") (some "B") (some "http://x.io")
      (some "d-only") none (some ⟨"a.png", "image/png", "5_a.png"⟩)).1.status = 200 ∧
    queriesOf (createAppsHandler true (.ok 1 []) (some "T") (some "B") (some "http://x.io")
      (some "d-only") none (some ⟨"a.png", "image/png", "5_a.png"⟩)).2 =
      [.insertApps none "T" "B" "http://x.io" "d-only" "5_a.png"] := by
  decide

/-- Claim C2 as amended: the read, readOne and delete operations (the GET
handlers) reject a missing table name with 400 before any query; the create
and update operations (the POST handlers) perform no table-name check and
issue their query with the table absent. -/
theorem C2_missing_table_name (dbRes : QueryResult) (id? : Option String) :
    getAppsHandler true dbRes none =
      (⟨400, .failError "Table name is required"⟩, [.acquire, .release]) ∧
    getEditAppsHandler true dbRes none id? =
      (⟨400, .failError "Table or ID name is required"⟩, [.acquire, .release]) ∧
    getProjectsHandler true dbRes none =
      (⟨400, .failError "Table name is required"⟩, [.acquire, .release]) ∧
    getEditProjectsHandler true dbRes none id? =
      (⟨400, .failError "Table name is required"⟩, [.acquire, .release]) ∧
    deleteProjectsHandler true dbRes none id? =
      (⟨400, .failError "Table name is required"⟩, [.acquire, .release]) ∧
    queriesOf (createAppsHandler true dbRes (some "T") (some "B") (some "http://x.io")
      (some "d-only") none (some ⟨"a.png", "image/png", "5_a.png"⟩)).2 =
      [.insertApps none "T" "B" "http://x.io" "d-only" "5_a.png"] ∧
    queriesOf (editAppsHandler true dbRes (some "T") (some "B") (some "http://x.io")
      (some "d-only") (some "old.png") none (some "7") none).2 =
      [.updateApps none "T" "B" "http://x.io" "d-only" "old.png" "7"] := by
  refine ⟨rfl, rfl, rfl, rfl, rfl, ?_, ?_⟩ <;> cases dbRes <;> rfl

/-- Claim C9: every GET / request is answered 500 "Internal Server Error":
the handler body references the identifier `results`, which is bound nowhere
in module scope, so evaluating the response object raises a ReferenceError
that falls through to the global error handler; the 200 branch is
unreachable. -/
theorem C9_root_always_internal_error :
    rootRoute = ⟨500, .errorMsg "Internal Server Error"⟩ ∧
    rootGetHandler = .threw ∧
    serverTopLevelNames.contains "results" = false := by
  decide

/-- Claim C10: GET /api/projects/delete validates only the table-name
parameter `type`: with `type` supplied and `id` omitted the request is not
rejected with 400, and the delete query is issued with the id absent
(bound as an undefined value). -/
theorem C10_delete_skips_id_validation (t : String) (dbRes : QueryResult) (ht : t ≠ "") :
    (deleteProjectsHandler true dbRes (some t) none).1.status ≠ 400 ∧
    queriesOf (deleteProjectsHandler true dbRes (some t) none).2 = [.deleteFrom t none] := by
  have hfalsy : falsy (some t) = false := by simp [falsy, ht]
  cases dbRes <;> simp [deleteProjectsHandler, hfalsy, queriesOf]

/-- Witness for C10 at the concrete table `projects`. -/
theorem C10_witness :
    (deleteProjectsHandler true (.ok 0 []) (some "projects") none).1.status ≠ 400 ∧
    queriesOf (deleteProjectsHandler true (.ok 0 []) (some "projects") none).2 =
      [.deleteFrom "projects" none] :=
  C10_delete_skips_id_validation "projects" (.ok 0 []) (by decide)

/-- Claim C3: on every create or edit handler a failed schema validation
means no database statement is executed — the query list of the trace is
empty and (when the pool handed out a connection) the response is the 400
validation shape, with the connection released. -/
theorem C3_validation_precedes_persistence
    (poolOk : Bool) (dbRes : QueryResult)
    (t? c? l? cat? tb? im? id? : Option String)
    (tbp? imp? pdfp? idp? : Option String)
    (f? fip? fpp? : Option StoredFile)
    (e1 e2 e3 e4 : List FieldError) :
    (parseAppCreate t? c? l? cat? (some (imgOf f?)) = .error e1 →
      queriesOf (createAppsHandler poolOk dbRes t? c? l? cat? tb? f?).2 = [] ∧
      (poolOk = true →
        createAppsHandler poolOk dbRes t? c? l? cat? tb? f? =
          (⟨400, .failErrors e1⟩, [.acquire, .release]))) ∧
    (parseAppEdit t? c? l? cat? (imgInOf f? im?) id? = .error e2 →
      queriesOf (editAppsHandler poolOk dbRes t? c? l? cat? im? tb? id? f?).2 = [] ∧
      (poolOk = true →
        editAppsHandler poolOk dbRes t? c? l? cat? im? tb? id? f? =
          (⟨400, .failErrors e2⟩, [.acquire, .release]))) ∧
    (parseProject (imgOf fpp?) (imgOf fip?) = .error e3 →
      queriesOf (createProjectsHandler poolOk dbRes tbp? (some (fip?, fpp?))).2 = [] ∧
      (poolOk = true →
        createProjectsHandler poolOk dbRes tbp? (some (fip?, fpp?)) =
          (⟨400, .failErrors e3⟩, [.acquire, .release]))) ∧
    (parseProjectEdit (resolvedOf fpp? pdfp?) (resolvedOf fip? imp?) idp? = .error e4 →
      queriesOf (editProjectsHandler poolOk dbRes tbp? imp? pdfp? idp? (some (fip?, fpp?))).2 = [] ∧
      (poolOk = true →
        editProjectsHandler poolOk dbRes tbp? imp? pdfp? idp? (some (fip?, fpp?)) =
          (⟨400, .failErrors e4⟩, [.acquire, .release]))) := by
  refine ⟨fun h => ?_, fun h => ?_, fun h => ?_, fun h => ?_⟩ <;>
    cases poolOk <;>
      simp [createAppsHandler, editAppsHandler, createProjectsHandler,
        editProjectsHandler, h, queriesOf]

/-- Witness for C3: one concrete invalid request per handler (empty title;
empty id; missing image; missing image and empty id), each answered 400 with
no query in the trace. -/
theorem C3_witness :
    createAppsHandler true (.ok 1 []) (some "") (some "B") (some "http://x.io")
        (some "d-only") (some "apps") (some ⟨"a.png", "image/png", "5_a.png"⟩) =
      (⟨400, .failErrors [⟨"title", "Title is required"⟩]⟩, [.acquire, .release]) ∧
    editAppsHandler true (.ok 1 []) (some "T") (some "B") (some "http://x.io")
        (some "d-only") (some "old.png") (some "apps") (some "") none =
      (⟨400, .failErrors [⟨"id", "ID is required"⟩]⟩, [.acquire, .release]) ∧
    createProjectsHandler true (.ok 1 []) (some "projects") (some (none, none)) =
      (⟨400, .failErrors [⟨"image", "Image path is required"⟩]⟩, [.acquire, .release]) ∧
    editProjectsHandler true (.ok 1 []) (some "projects") none none (some "") (some (none, none)) =
      (⟨400, .failErrors [⟨"image", "Image path is required"⟩, ⟨"id", "ID is required"⟩]⟩,
       [.acquire, .release]) := by
  refine ⟨?_, ?_, ?_, ?_⟩
  · exact ((C3_validation_precedes_persistence true (.ok 1 []) (some "") (some "B")
      (some "http://x.io") (some "d-only") (some "apps") none none none none none none
      (some ⟨"a.png", "image/png", "5_a.png"⟩) none none _ [] [] []).1 rfl).2 rfl
  · exact ((C3_validation_precedes_persistence true (.ok 1 []) (some "T") (some "B")
      (some "http://x.io") (some "d-only") (some "apps") (some "old.png") (some "")
      none none none none none none none [] _ [] []).2.1 rfl).2 rfl
  · exact ((C3_validation_precedes_persistence true (.ok 1 []) none none none none none
      none none (some "projects") none none none none none none [] [] _ []).2.2.1
      rfl).2 rfl
  · exact ((C3_validation_precedes_persistence true (.ok 1 []) none none none none none
      none none (some "projects") none none (some "") none none none [] [] [] _).2.2.2
      rfl).2 rfl

/-- Claim C5 counterexample: a non-multipart POST /api/projects request
(`req.files` unset) throws at the `req.files["image"]` access — after the
connection was acquired, outside the try/finally — so the handler terminates
holding the connection: the trace is a bare acquire with no release.  The
edit-projects handler leaks the same way at its line-520 access. -/
theorem C5_counterexample_projects_leak :
    ¬ balancedEvents (createProjectsHandler true (.ok 1 []) (some "projects") none).2 ∧
    (createProjectsHandler true (.ok 1 []) (some "projects") none).2 = [.acquire] ∧
    ¬ balancedEvents
      (editProjectsHandler true (.ok 1 []) (some "projects") (some "a.png") (some "")
        (some "7") none).2 ∧
    (editProjectsHandler true (.ok 1 []) (some "projects") (some "a.png") (some "")
      (some "7") none).2 = [.acquire] := by
  refine ⟨?_, rfl, ?_, rfl⟩ <;>
    simp [balancedEvents, countAcquire, countRelease,
      createProjectsHandler, editProjectsHandler]

/-- Claim C5 as amended: every connection-acquiring handler releases the
connection on every exit path — pool failure, validation error, database
error, success — except the two project POST handlers on non-multipart
requests, where the `req.files` access after acquisition and outside the
try/finally throws and the connection is never released.  The first eight
conjuncts state the balanced traces for all handlers (the project handlers
on multipart requests, `req.files` set); the last two exhibit the leaking
trace of the project handlers when `req.files` is unset. -/
theorem C5_pooled_connection_release
    (poolOk dbFail : Bool) (dbRes : QueryResult) (users : List User)
    (bcmp : String → String → Bool)
    (a? b? c? d? e? g? h? : Option String) (f1? f2? f3? : Option StoredFile) :
    balancedEvents (loginHandler poolOk dbFail users bcmp a? b?).2 ∧
    balancedEvents (createAppsHandler poolOk dbRes a? b? c? d? e? f1?).2 ∧
    balancedEvents (editAppsHandler poolOk dbRes a? b? c? d? e? g? h? f1?).2 ∧
    balancedEvents (createProjectsHandler poolOk dbRes a? (some (f2?, f3?))).2 ∧
    balancedEvents (editProjectsHandler poolOk dbRes a? b? c? d? (some (f2?, f3?))).2 ∧
    balancedEvents (getAppsHandler poolOk dbRes a?).2 ∧
    balancedEvents (getEditAppsHandler poolOk dbRes a? b?).2 ∧
    balancedEvents (getProjectsHandler poolOk dbRes a?).2 ∧
    balancedEvents (getEditProjectsHandler poolOk dbRes a? b?).2 ∧
    balancedEvents (deleteProjectsHandler poolOk dbRes a? b?).2 ∧
    (createProjectsHandler true dbRes a? none).2 = [.acquire] ∧
    (editProjectsHandler true dbRes a? b? c? d? none).2 = [.acquire] :=
  ⟨login_balanced poolOk dbFail users bcmp a? b?,
   createApps_balanced poolOk dbRes a? b? c? d? e? f1?,
   editApps_balanced poolOk dbRes a? b? c? d? e? g? h? f1?,
   createProjects_balanced poolOk dbRes a? f2? f3?,
   editProjects_balanced poolOk dbRes a? b? c? d? f2? f3?,
   getApps_balanced poolOk dbRes a?,
   getEditApps_balanced poolOk dbRes a? b?,
   getProjects_balanced poolOk dbRes a?,
   getEditProjects_balanced poolOk dbRes a? b?,
   deleteProjects_balanced poolOk dbRes a? b?,
   rfl, rfl⟩

/-- Claim C4 counterexample: `fileFilter` accepts a file whose extension
`.fakepdf` and MIME type `application/x-fakepdf` are both outside the fixed
allow-list — the unanchored regex test is substring containment, not
membership — so "accepted only if extension and MIME type belong to the
allow-list" fails on the code. -/
theorem C4_counterexample_substring_match :
    fileFilter ⟨"payload.fakepdf", "application/x-fakepdf"⟩ = true ∧
    specAllowed ⟨"payload.fakepdf", "application/x-fakepdf"⟩ = false := by
  decide

/-- Claim C4 as amended: an uploaded file is accepted iff its lowercased
extension and its declared MIME type each contain one of jpeg, jpg, png,
gif, pdf as a substring (the iff holds for every file, uploads accepted by
the filter included), and a rejected file aborts the route before any file
is stored and before any database statement — the trace is empty. -/
theorem C4_upload_filter (f : RawFile) (now : Nat) (poolOk : Bool) (dbRes : QueryResult)
    (t? c? l? cat? tb? : Option String) :
    (fileFilter f = true ↔
      ((∃ p ∈ allowList, isSubList p.toList (lowerStr (extname f.originalname)).toList = true) ∧
       (∃ p ∈ allowList, isSubList p.toList f.mimetype.toList = true))) ∧
    (fileFilter f = false →
      createAppsRoute now poolOk dbRes t? c? l? cat? tb? (some f) =
        (⟨500, .errorMsg "Internal Server Error"⟩, [])) := by
  constructor
  · simp [fileFilter, filetypesTest, List.any_eq_true, allowList]
  · intro hrej
    simp [createAppsRoute, hrej]

/-- Witness for C4: the acceptance iff applied forward at an accepted PNG
upload (its extension and MIME type contain an allow-list token), and the
empty-trace abort applied at a rejected `.exe` upload. -/
theorem C4_witness :
    ((∃ p ∈ allowList, isSubList p.toList (lowerStr (extname "photo.png")).toList = true) ∧
     (∃ p ∈ allowList, isSubList p.toList "image/png".toList = true)) ∧
    createAppsRoute 1700 true (.ok 1 []) (some "T") (some "B") (some "http://x.io")
        (some "d-only") (some "apps") (some ⟨"malware.exe", "application/x-msdownload"⟩) =
      (⟨500, .errorMsg "Internal Server Error"⟩, []) :=
  ⟨(C4_upload_filter ⟨"photo.png", "image/png"⟩ 1700 true (.ok 1 [])
      none none none none none).1.mp (by decide),
   (C4_upload_filter ⟨"malware.exe", "application/x-msdownload"⟩ 1700 true (.ok 1 [])
      (some "T") (some "B") (some "http://x.io") (some "d-only") (some "apps")).2
     (by decide)⟩

/-- Claim C6: a create-app request with valid fields and an accepted uploaded
image stores the file under the name made of the ingestion timestamp, an
underscore and the original file name; the inserted record's image field is
that same name; and the response is the 200 success shape. -/
theorem C6_create_app_timestamped_image
    (now : Nat) (t c l cat tb : String) (f : RawFile) (affected : Nat) (rows : List Row)
    (ht : t ≠ "") (hc : c ≠ "") (hl : urlOk l = true)
    (hcat : cat = "d-only" ∨ cat = "d-and-d") (hf : fileFilter f = true) :
    createAppsRoute now true (.ok affected rows) (some t) (some c) (some l) (some cat)
        (some tb) (some f) =
      (⟨200, .successMsg "Project submitted successfully!"⟩,
       [.storeFile (toString now ++ "_" ++ f.originalname),
        .acquire,
        .dbQuery (.insertApps (some tb) t c l cat (toString now ++ "_" ++ f.originalname)),
        .release]) := by
  have himg : (toString now ++ "_" ++ f.originalname) ≠ "" := storedName_ne_empty now f
  have hparse : parseAppCreate (some t) (some c) (some l) (some cat)
      (some (toString now ++ "_" ++ f.originalname)) =
      .ok ⟨t, c, l, cat, toString now ++ "_" ++ f.originalname⟩ := by
    rcases hcat with h | h <;>
      simp [parseAppCreate, vRequiredMin1, vLink, vCategory, vImage, ht, hc, hl, himg, h]
  simp [createAppsRoute, hf, createAppsHandler, imgOf, diskStore, storedName, hparse]

/-- Witness for C6: a concrete create-app request with an uploaded PNG. -/
theorem C6_witness :
    createAppsRoute 1700 true (.ok 1 []) (some "My App") (some "Desc") (some "http://x.io")
        (some "d-only") (some "apps_demo") (some ⟨"photo.png", "image/png"⟩) =
      (⟨200, .successMsg "Project submitted successfully!"⟩,
       [.storeFile (toString 1700 ++ "_" ++ "photo.png"),
        .acquire,
        .dbQuery (.insertApps (some "apps_demo") "My App" "Desc" "http://x.io" "d-only"
          (toString 1700 ++ "_" ++ "photo.png")),
        .release]) :=
  C6_create_app_timestamped_image 1700 "My App" "Desc" "http://x.io" "d-only" "apps_demo"
    ⟨"photo.png", "image/png"⟩ 1 [] (by decide) (by decide) (by decide)
    (Or.inl rfl) (by decide)

/-- Claim C7: for a login request whose fields pass validation (non-empty
email and password) against a users table with unique emails, a token is
returned iff the email belongs to some user and the supplied password
verifies against that user's stored hash; a non-existent email is answered
400 with the field error "User does not exist" (hence no token), and a wrong
password is answered 400 with the field error "Incorrect password". -/
theorem C7_login_token_iff (users : List User) (bcmp : String → String → Bool)
    (e p : String) (he : e ≠ "") (hp : p ≠ "")
    (huniq : ∀ u ∈ users, ∀ v ∈ users, u.email = v.email → u = v) :
    ((∃ tok, tokenOf (loginHandler true false users bcmp (some e) (some p)).1 = some tok) ↔
      ∃ u ∈ users, u.email = e ∧ bcmp p u.password = true) ∧
    ((∀ u ∈ users, u.email ≠ e) →
      (loginHandler true false users bcmp (some e) (some p)).1 =
        ⟨400, .failErrors [⟨"email", "User does not exist"⟩]⟩) ∧
    (∀ u ∈ users, u.email = e → bcmp p u.password = false →
      (loginHandler true false users bcmp (some e) (some p)).1 =
        ⟨400, .failErrors [⟨"password", "Incorrect password"⟩]⟩) := by
  have hparse : parseLogin (some e) (some p) = .ok (e, p) := by
    simp [parseLogin, vRequiredMin1, he, hp]
  cases hf : users.find? (fun u => u.email == e) with
  | none =>
    have hresp : loginHandler true false users bcmp (some e) (some p) =
        (⟨400, .failErrors [⟨"email", "User does not exist"⟩]⟩,
         [.acquire, .dbQuery (.selectUsers e), .release]) := by
      simp [loginHandler, hparse, hf]
    have hnone : ∀ u ∈ users, u.email ≠ e := by
      intro u hu heq
      exact (List.find?_eq_none.mp hf u hu) (beq_iff_eq.mpr heq)
    refine ⟨⟨?_, ?_⟩, fun _ => by rw [hresp], ?_⟩
    · rintro ⟨tok, htok⟩
      rw [hresp] at htok
      exact absurd htok (by simp [tokenOf])
    · rintro ⟨u, hu, heq, -⟩
      exact absurd heq (hnone u hu)
    · intro u hu heq _
      exact absurd heq (hnone u hu)
  | some u =>
    have hue : u.email = e := by
      have h1 := List.find?_some hf
      simpa using h1
    have hmem : u ∈ users := List.mem_of_find?_eq_some hf
    cases hb : bcmp p u.password with
    | true =>
      have hresp : loginHandler true false users bcmp (some e) (some p) =
          (⟨200, .successToken "Successfully Logged In!" ⟨u.id, u.email⟩⟩,
           [.acquire, .dbQuery (.selectUsers e), .release]) := by
        simp [loginHandler, hparse, hf, hb]
      refine ⟨⟨fun _ => ⟨u, hmem, hue, hb⟩, fun _ => ⟨⟨u.id, u.email⟩, by rw [hresp]; rfl⟩⟩,
        fun hno => absurd hue (hno u hmem), ?_⟩
      intro v hv hve hvb
      have hv_eq : v = u := huniq v hv u hmem (hve.trans hue.symm)
      rw [hv_eq, hb] at hvb
      exact Bool.noConfusion hvb
    | false =>
      have hresp : loginHandler true false users bcmp (some e) (some p) =
          (⟨400, .failErrors [⟨"password", "Incorrect password"⟩]⟩,
           [.acquire, .dbQuery (.selectUsers e), .release]) := by
        simp [loginHandler, hparse, hf, hb]
      refine ⟨⟨?_, ?_⟩, fun hno => absurd hue (hno u hmem), fun _ _ _ _ => by rw [hresp]⟩
      · rintro ⟨tok, htok⟩
        rw [hresp] at htok
        exact absurd htok (by simp [tokenOf])
      · rintro ⟨v, hv, hve, hvb⟩
        have hv_eq : v = u := huniq v hv u hmem (hve.trans hue.symm)
        rw [hv_eq, hb] at hvb
        exact Bool.noConfusion hvb

/-- Demo users table and bcrypt-compare oracle for the C7 witness. -/
def demoUsers : List User := [⟨1, "a@b.com", "hashA"⟩]

def demoCmp (pw hash : String) : Bool := pw == hash

/-- Witness for C7: with the demo table, the right credentials yield a token
and an unknown email yields the 400 "User does not exist" error. -/
theorem C7_witness :
    (∃ tok, tokenOf (loginHandler true false demoUsers demoCmp
      (some "a@b.com") (some "hashA")).1 = some tok) ∧
    (loginHandler true false demoUsers demoCmp (some "nobody@b.com") (some "x")).1 =
      ⟨400, .failErrors [⟨"email", "User does not exist"⟩]⟩ :=
  ⟨(C7_login_token_iff demoUsers demoCmp "a@b.com" "hashA" (by decide) (by decide)
      (by decide)).1.mpr ⟨⟨1, "a@b.com", "hashA"⟩, by decide, by decide, by decide⟩,
   (C7_login_token_iff demoUsers demoCmp "nobody@b.com" "x" (by decide) (by decide)
      (by decide)).2.1 (by decide)⟩

/-- Claim C8: POST /api/send-mail accepts the `contact` field only when it is
a syntactically valid email address: whenever the response is not a 400
validation failure the contact passed the email check, and a non-empty
contact that is not an email (a phone number, say) is answered 400 carrying
the field error "Invalid email format" — despite the field's required
message naming "Email Address or Phone Number". -/
theorem C8_contact_requires_email (tOk mOk : Bool) (fn c m : String) :
    ((sendMailHandler tOk mOk (some fn) (some c) (some m)).status ≠ 400 → isEmail c = true) ∧
    (c ≠ "" → isEmail c = false →
      (sendMailHandler tOk mOk (some fn) (some c) (some m)).status = 400 ∧
      ⟨"contact", "Invalid email format"⟩ ∈
        errorsOf (sendMailHandler tOk mOk (some fn) (some c) (some m))) := by
  constructor
  · intro hne
    cases hE : isEmail c with
    | true => rfl
    | false =>
      exfalso
      apply hne
      have hvc : ∃ es, vContact (some c) = .error es := by
        by_cases hc0 : c = ""
        · subst hc0
          exact ⟨[⟨"contact", "Email Address or Phone Number is required"⟩,
                  ⟨"contact", "Invalid email format"⟩], by simp [vContact, hE]⟩
        · exact ⟨[⟨"contact", "Invalid email format"⟩], by simp [vContact, hc0, hE]⟩
      obtain ⟨es, hvc⟩ := hvc
      exact (sendMail_contact_error tOk mOk fn c m es hvc).1
  · intro hc0 hE
    have hvc : vContact (some c) = .error [⟨"contact", "Invalid email format"⟩] := by
      simp [vContact, hc0, hE]
    obtain ⟨hstat, herrs⟩ := sendMail_contact_error tOk mOk fn c m _ hvc
    refine ⟨hstat, ?_⟩
    rw [herrs]
    simp

/-- Witness for C8: a well-formed email is accepted (200, hence the first
conjunct applies), and the phone number "0123456789" is rejected 400 with
the invalid-email field error. -/
theorem C8_witness :
    isEmail "jane@example.com" = true ∧
    ((sendMailHandler true true (some "J") (some "0123456789") (some "hi")).status = 400 ∧
      ⟨"contact", "Invalid email format"⟩ ∈
        errorsOf (sendMailHandler true true (some "J") (some "0123456789") (some "hi"))) :=
  ⟨(C8_contact_requires_email true true "J" "jane@example.com" "hi").1 (by decide),
   (C8_contact_requires_email true true "J" "0123456789" "hi").2 (by decide) (by decide)⟩

end Portfolio
